import Mathlib

/-!
Shallow embedding of two Python artifacts of the okteto repository:
`validate_snapshot_command.py` (the structural checker) and
`samples/python-getting-started/app.py` (the greeter).

The filesystem is modelled as a total map from path to file state; a
fallible read returns `Except Unit String`; the checker's stdout is the
list of strings passed to `print`, in order.
-/

/-- State of one path on the filesystem: absent, or a file with a given
content; `readable = false` models a file whose `open`/`read` raises
an `OSError`. -/
inductive FileState where
  | absent : FileState
  | file (content : String) (readable : Bool) : FileState
deriving DecidableEq

/-- A filesystem snapshot: every path maps to a `FileState`. -/
def FS : Type := String → FileState

/-- `check_file_exists(filepath)` = `os.path.exists(filepath)`: a total
boolean, it raises no exception. -/
def check_file_exists (fs : FS) (filepath : String) : Bool :=
  match fs filepath with
  | .absent => false
  | .file _ _ => true

/-- `open(filepath, 'r')` followed by `f.read()`: yields the content when
the file exists and is readable, otherwise raises (`Except.error`). -/
def read_file (fs : FS) (filepath : String) : Except Unit String :=
  match fs filepath with
  | .file c true => .ok c
  | _ => .error ()

/-- `listLeads pat l`: `pat` is an initial run of `l`, char by char. -/
def listLeads : List Char → List Char → Bool
  | [], _ => true
  | _ :: _, [] => false
  | a :: as, b :: bs => a == b && listLeads as bs

/-- Substring occurrence test on char lists (Python's `in` on `str`). -/
def list_has_sub (pat : List Char) : List Char → Bool
  | [] => pat.isEmpty
  | c :: rest => listLeads pat (c :: rest) || list_has_sub pat rest

/-- Python `sub in s` for strings. -/
def str_contains (s pat : String) : Bool :=
  list_has_sub pat.data s.data

/-- Python `s.endswith(suf)`. -/
def str_ends_with (s suf : String) : Bool :=
  listLeads suf.data.reverse s.data.reverse

/-- Python regex class `\s` on the ASCII range (the inputs in scope are
Go source files): space, tab, newline, carriage return, vertical tab,
form feed. -/
def is_py_space (c : Char) : Bool :=
  c == ' ' || c == '\t' || c == '\n' || c == '\r' || c == '\x0b' || c == '\x0c'

/-- Python regex class `\w` on the ASCII range: letters, digits, underscore. -/
def is_py_word (c : Char) : Bool :=
  c.isAlphanum || c == '_'

/-- After `package` and one whitespace char, the regex tail `\s*\w` : skip
further whitespace, the first non-whitespace char must be a word char. -/
def skip_space_to_word : List Char → Bool
  | [] => false
  | c :: rest => if is_py_space c then skip_space_to_word rest else is_py_word c

/-- Does `package\s+\w+` match at the head of `cs`. -/
def package_match_at (cs : List Char) : Bool :=
  listLeads "package".data cs &&
    (match cs.drop 7 with
     | [] => false
     | c :: rest => is_py_space c && skip_space_to_word rest)

/-- Scan for a match of `^package\s+\w+` under `re.MULTILINE`: the flag
records whether the current position is the start of the string or
immediately after a newline. -/
def package_scan : Bool → List Char → Bool
  | _, [] => false
  | atStart, c :: rest =>
    (atStart && package_match_at (c :: rest)) || package_scan (c == '\n') rest

/-- `re.search(r'^package\s+\w+', content, re.MULTILINE)` is not `None`. -/
def has_package_decl (content : String) : Bool :=
  package_scan true content.data

/-- The f-string `f"Unmatched braces: {open_braces} open, {close_braces} close"`. -/
def brace_issue (o c : Nat) : String :=
  "Unmatched braces: " ++ toString o ++ " open, " ++ toString c ++ " close"

/-- The f-string `f"Unmatched parentheses: {open_parens} open, {close_parens} close"`. -/
def paren_issue (o c : Nat) : String :=
  "Unmatched parentheses: " ++ toString o ++ " open, " ++ toString c ++ " close"

/-- The pure part of `check_go_syntax(filepath)`: given the content read
from the file, the list `issues` built by the three sequential checks
(`content.count` of a single-character string counts its occurrences).
The file read that precedes it in the source is `check_go_syntax_file`. -/
def check_go_syntax (content : String) : List String :=
  let issues : List String := []
  let open_braces := content.data.count '{'
  let close_braces := content.data.count '}'
  let issues :=
    if open_braces ≠ close_braces then issues ++ [brace_issue open_braces close_braces]
    else issues
  let open_parens := content.data.count '('
  let close_parens := content.data.count ')'
  let issues :=
    if open_parens ≠ close_parens then issues ++ [paren_issue open_parens close_parens]
    else issues
  let issues :=
    if has_package_decl content then issues
    else issues ++ ["Missing package declaration"]
  issues

/-- `check_go_syntax(filepath)` as in the source: read the file (which may
raise), then run the three checks on the content. -/
def check_go_syntax_file (fs : FS) (filepath : String) : Except Unit (List String) := do
  let content ← read_file fs filepath
  pure ( check_go_syntax content)

/-- The hard-coded `files_to_check` list of `validate_snapshot_command`. -/
def files_to_check : List String :=
  ["/workspace/cmd/snapshot/snapshot.go",
   "/workspace/cmd/snapshot/upload.go",
   "/workspace/cmd/snapshot/upload_test.go",
   "/workspace/cmd/snapshot/README.md"]

/-- Output of one iteration of the `for filepath in files_to_check` loop in
`validate_snapshot_command`. -/
def per_file_output (fs : FS) (filepath : String) : Except Unit (List String) :=
  if check_file_exists fs filepath then do
    let tail ←
      if str_ends_with filepath ".go" then do
        let issues ← check_go_syntax_file fs filepath
        if issues ≠ [] then
          pure ("  ⚠ Syntax issues found:" :: issues.map (fun issue => "    - " ++ issue))
        else
          pure ["  ✓ Basic syntax validation passed"]
      else
        pure []
    pure (("✓ " ++ filepath ++ " exists") :: tail)
  else
    pure ["✗ " ++ filepath ++ " missing"]

/-- Output of the `main.go` integration block of `validate_snapshot_command`:
nothing at all when `/workspace/main.go` does not exist, otherwise the file
is read (which may raise) and two substring checks each print one line. -/
def main_go_output (fs : FS) : Except Unit (List String) :=
  if check_file_exists fs "/workspace/main.go" then do
    let main_content ← read_file fs "/workspace/main.go"
    let line1 :=
      if str_contains main_content "github.com/okteto/okteto/cmd/snapshot" then
        "✓ Snapshot import added to main.go"
      else
        "✗ Snapshot import missing from main.go"
    let line2 :=
      if str_contains main_content "snapshot.Snapshot(" then
        "✓ Snapshot command added to root command"
      else
        "✗ Snapshot command not added to root command"
    pure [line1, line2]
  else
    pure []

/-- The two header prints at the top of `validate_snapshot_command`. -/
def header_output : List String :=
  ["Validating Okteto Snapshot Command Implementation...",
   String.mk (List.replicate 50 '=')]

/-- The hard-coded final blocks: `"\nValidation Summary:"` with its six
lines and `"\nFeatures implemented:"` with its eight lines, printed
unconditionally at the end of `validate_snapshot_command`. -/
def summary_output : List String :=
  ["\nValidation Summary:",
   "- Command structure: ✓ Created",
   "- Upload subcommand: ✓ Implemented",
   "- Progress tracking: ✓ Using pb/v3",
   "- Kubernetes integration: ✓ Using existing patterns",
   "- Volume snapshots: ✓ Using snapshot.storage.k8s.io/v1",
   "- CLI integration: ✓ Added to main.go",
   "\nFeatures implemented:",
   "1. ✓ Directory size calculation",
   "2. ✓ PVC creation with size override",
   "3. ✓ Temporary pod creation",
   "4. ✓ kubectl cp with progress tracking",
   "5. ✓ VolumeSnapshot creation",
   "6. ✓ Snapshot readiness monitoring",
   "7. ✓ Resource cleanup",
   "8. ✓ Custom snapshot naming"]

/-- `validate_snapshot_command()`: the lines printed to stdout in order, or
`Except.error` when an unhandled I/O error aborts the run. -/
def validate_snapshot_command (fs : FS) : Except Unit (List String) := do
  let segs ← files_to_check.mapM (per_file_output fs)
  let main_seg ← main_go_output fs
  pure (header_output ++ segs.flatten ++ main_seg ++ summary_output)

/-- `if __name__ == "__main__": validate_snapshot_command()`: when the call
returns, the Python process exits normally with status 0 (the script never
calls `sys.exit`). -/
def script_main (fs : FS) : Except Unit (List String × Nat) := do
  let out ← validate_snapshot_command fs
  pure (out, 0)

/-- Every checked file (the four expected files and `/workspace/main.go`)
that exists can be read; the hypothesis under which no read in the script
raises. -/
def all_readable (fs : FS) : Prop :=
  ∀ p ∈ "/workspace/main.go" :: files_to_check, ∀ c, fs p ≠ FileState.file c false

/-- An HTTP request as far as the greeter could observe one: method, path,
query parameters and headers. -/
structure HttpRequest where
  method : String
  path : String
  query : List (String × String)
  headers : List (String × String)

/-- `hello_world()` from app.py: it takes no argument and returns the
constant greeting. -/
def hello_world : String :=
  let msg := "Hello World!"
  msg

/-- Modelled from the spec: the Flask framework (a library, not part of
src/) routes a request for the root path to `hello_world`, passes it
nothing from the request, and wraps the returned string in a response with
status 200. The pair is (body, status code). -/
def handle_root (_req : HttpRequest) : String × Nat :=
  (hello_world, 200)

/-- The brace check of `check_go_syntax`, in isolation. -/
def brace_check (content : String) : List String :=
  if content.data.count '{' ≠ content.data.count '}' then
    [brace_issue (content.data.count '{') (content.data.count '}')]
  else []

/-- The parenthesis check of `check_go_syntax`, in isolation. -/
def paren_check (content : String) : List String :=
  if content.data.count '(' ≠ content.data.count ')' then
    [paren_issue (content.data.count '(') (content.data.count ')')]
  else []

/-- The package-declaration check of `check_go_syntax`, in isolation. -/
def package_check (content : String) : List String :=
  if has_package_decl content then [] else ["Missing package declaration"]

/-- Recognizer for a brace-mismatch issue string: it starts with the text
`Unmatched braces`. -/
def is_brace_issue (s : String) : Bool :=
  listLeads "Unmatched braces".data s.data

/-- The warning line `f"✗ {filepath} missing"`. -/
def missing_line (filepath : String) : String :=
  "✗ " ++ filepath ++ " missing"

/-- What one loop iteration prints, as a pure function: meaningful whenever
the read cannot fail (file absent or readable). -/
def per_file_lines (fs : FS) (filepath : String) : List String :=
  match fs filepath with
  | .absent => [missing_line filepath]
  | .file content _ =>
    if str_ends_with filepath ".go" then
      if check_go_syntax content ≠ [] then
        ("✓ " ++ filepath ++ " exists") :: "  ⚠ Syntax issues found:" ::
          ( check_go_syntax content).map (fun issue => "    - " ++ issue)
      else
        ["✓ " ++ filepath ++ " exists", "  ✓ Basic syntax validation passed"]
    else
      ["✓ " ++ filepath ++ " exists"]

/-- What the `main.go` block prints, as a pure function: meaningful whenever
the read cannot fail. -/
def main_go_lines (fs : FS) : List String :=
  match fs "/workspace/main.go" with
  | .absent => []
  | .file main_content _ =>
    [if str_contains main_content "github.com/okteto/okteto/cmd/snapshot" then
       "✓ Snapshot import added to main.go"
     else
       "✗ Snapshot import missing from main.go",
     if str_contains main_content "snapshot.Snapshot(" then
       "✓ Snapshot command added to root command"
     else
       "✗ Snapshot command not added to root command"]

/-- The full stdout of a run in which no read fails, as a pure function. -/
def out_lines (fs : FS) : List String :=
  header_output ++ (files_to_check.map (per_file_lines fs)).flatten ++
    main_go_lines fs ++ summary_output

/-- The five lines that mention `/workspace/main.go`: the two confirmation
lines, the two warning lines of the integration block, and the
missing-file warning that the loop would have printed for such a path. -/
def main_go_concern_lines : List String :=
  ["✓ Snapshot import added to main.go",
   "✗ Snapshot import missing from main.go",
   "✓ Snapshot command added to root command",
   "✗ Snapshot command not added to root command",
   missing_line "/workspace/main.go"]

/-- A filesystem on which every path is absent. -/
def empty_fs : FS := fun _ => FileState.absent

/-- A filesystem on which exactly one expected file exists and is not
readable. -/
def unreadable_fs : FS := fun p =>
  if p = "/workspace/cmd/snapshot/snapshot.go" then FileState.file "" false
  else FileState.absent

/-! ## Helper lemmas -/

theorem except_bind_ok {α β : Type} (a : α) (f : α → Except Unit β) :
    (Except.ok a : Except Unit α) >>= f = f a := rfl

theorem except_bind_error {α β : Type} (f : α → Except Unit β) :
    (Except.error () : Except Unit α) >>= f = (Except.error () : Except Unit β) := rfl

theorem except_pure {α : Type} (a : α) : (pure a : Except Unit α) = Except.ok a := rfl

theorem empty_fs_readable : all_readable empty_fs := by
  intro p _ c h
  simp [empty_fs] at h

theorem dash_line_ne (i s : String) (h : s.data.head? ≠ some ' ') :
    "    - " ++ i ≠ s := by
  intro he
  apply h
  rw [← he, String.data_append]
  rfl

theorem per_file_output_eq (fs : FS) (p : String)
    (h : ∀ c, fs p ≠ FileState.file c false) :
    per_file_output fs p = Except.ok (per_file_lines fs p) := by
  cases hp : fs p with
  | absent =>
    simp [per_file_output, per_file_lines, check_file_exists, hp, missing_line, except_pure]
  | file content r =>
    cases r with
    | false => exact absurd hp (h content)
    | true =>
      cases hgo : str_ends_with p ".go" with
      | false =>
        simp [per_file_output, per_file_lines, check_file_exists, hp, hgo,
          except_bind_ok, except_pure]
      | true =>
        by_cases hi : check_go_syntax content = [] <;>
          simp [per_file_output, per_file_lines, check_file_exists, hp, hgo,
            check_go_syntax_file, read_file, hi, except_bind_ok, except_pure]

theorem main_go_output_eq (fs : FS)
    (h : ∀ c, fs "/workspace/main.go" ≠ FileState.file c false) :
    main_go_output fs = Except.ok (main_go_lines fs) := by
  cases hp : fs "/workspace/main.go" with
  | absent =>
    simp [main_go_output, main_go_lines, check_file_exists, hp, except_pure]
  | file content r =>
    cases r with
    | false => exact absurd hp (h content)
    | true =>
      simp [main_go_output, main_go_lines, check_file_exists, hp, read_file,
        except_bind_ok, except_pure]

theorem mapM_four (f : String → Except Unit (List String)) (a b c d : String)
    (ra rb rc rd : List String)
    (ha : f a = .ok ra) (hb : f b = .ok rb) (hc : f c = .ok rc) (hd : f d = .ok rd) :
    [a, b, c, d].mapM f = .ok [ra, rb, rc, rd] := by
  simp only [List.mapM_cons, ha, hb, hc, hd, except_bind_ok, List.mapM_nil, except_pure]

theorem validate_ok (fs : FS) (h : all_readable fs) :
    validate_snapshot_command fs = Except.ok (out_lines fs) := by
  have h1 := per_file_output_eq fs "/workspace/cmd/snapshot/snapshot.go" (h _ (by decide))
  have h2 := per_file_output_eq fs "/workspace/cmd/snapshot/upload.go" (h _ (by decide))
  have h3 := per_file_output_eq fs "/workspace/cmd/snapshot/upload_test.go" (h _ (by decide))
  have h4 := per_file_output_eq fs "/workspace/cmd/snapshot/README.md" (h _ (by decide))
  have hm := main_go_output_eq fs (h _ (by decide))
  have hmap : files_to_check.mapM (per_file_output fs) =
      Except.ok [per_file_lines fs "/workspace/cmd/snapshot/snapshot.go",
                 per_file_lines fs "/workspace/cmd/snapshot/upload.go",
                 per_file_lines fs "/workspace/cmd/snapshot/upload_test.go",
                 per_file_lines fs "/workspace/cmd/snapshot/README.md"] := by
    rw [files_to_check]
    exact mapM_four _ _ _ _ _ _ _ _ _ h1 h2 h3 h4
  unfold validate_snapshot_command
  simp only [hmap, hm, except_bind_ok, except_pure]
  simp [out_lines, files_to_check]

theorem mapM_error_of_mem {α β : Type} (f : α → Except Unit β) (l : List α) (p : α)
    (hp : p ∈ l) (he : f p = Except.error ()) : l.mapM f = Except.error () := by
  induction l with
  | nil => cases hp
  | cons a t ih =>
    rw [List.mapM_cons]
    cases ha : f a with
    | error e =>
      cases e
      simp only [ha, except_bind_error]
    | ok x =>
      rcases List.mem_cons.mp hp with rfl | hmem
      · rw [ha] at he
        cases he
      · simp only [ha, except_bind_ok, ih hmem, except_bind_error]

theorem not_mem_per_file_lines (fs : FS) (q target : String)
    (h1 : target ≠ "✓ " ++ q ++ " exists")
    (h2 : target ≠ missing_line q)
    (h3 : target ≠ "  ⚠ Syntax issues found:")
    (h4 : target ≠ "  ✓ Basic syntax validation passed")
    (h5 : ∀ i, target ≠ "    - " ++ i) :
    target ∉ per_file_lines fs q := by
  unfold per_file_lines
  cases hq : fs q with
  | absent => simp [h2]
  | file content r =>
    cases hgo : str_ends_with q ".go" with
    | false => simp [h1]
    | true =>
      by_cases hi : check_go_syntax content = []
      · simp [hi, h1, h4]
      · simp only [hi, if_pos, ne_eq, not_false_iff, if_true, ite_true]
        intro hmem
        rcases List.mem_cons.mp hmem with rfl | hmem2
        · exact h1 rfl
        rcases List.mem_cons.mp hmem2 with rfl | hmem3
        · exact h3 rfl
        rcases List.mem_map.mp hmem3 with ⟨issue, _, hiss⟩
        exact h5 issue hiss.symm

theorem count_per_file_zero (fs : FS) (q target : String)
    (h1 : target ≠ "✓ " ++ q ++ " exists")
    (h2 : target ≠ missing_line q)
    (h3 : target ≠ "  ⚠ Syntax issues found:")
    (h4 : target ≠ "  ✓ Basic syntax validation passed")
    (h5 : ∀ i, target ≠ "    - " ++ i) :
    (per_file_lines fs q).count target = 0 :=
  List.count_eq_zero.mpr (not_mem_per_file_lines fs q target h1 h2 h3 h4 h5)

theorem count_per_file_absent (fs : FS) (q : String) (h : fs q = FileState.absent) :
    (per_file_lines fs q).count (missing_line q) = 1 := by
  simp [per_file_lines, h]

theorem mem_main_go_lines (fs : FS) (s : String) (h : s ∈ main_go_lines fs) :
    s = "✓ Snapshot import added to main.go" ∨
    s = "✗ Snapshot import missing from main.go" ∨
    s = "✓ Snapshot command added to root command" ∨
    s = "✗ Snapshot command not added to root command" := by
  unfold main_go_lines at h
  cases hm : fs "/workspace/main.go" with
  | absent => rw [hm] at h; cases h
  | file content r =>
    rw [hm] at h
    cases hc1 : str_contains content "github.com/okteto/okteto/cmd/snapshot" <;>
      cases hc2 : str_contains content "snapshot.Snapshot(" <;>
        simp [hc1, hc2] at h <;> tauto

theorem count_main_go_zero (fs : FS) (target : String)
    (k1 : target ≠ "✓ Snapshot import added to main.go")
    (k2 : target ≠ "✗ Snapshot import missing from main.go")
    (k3 : target ≠ "✓ Snapshot command added to root command")
    (k4 : target ≠ "✗ Snapshot command not added to root command") :
    (main_go_lines fs).count target = 0 := by
  refine List.count_eq_zero.mpr (fun hm => ?_)
  rcases mem_main_go_lines fs target hm with rfl | rfl | rfl | rfl
  exacts [k1 rfl, k2 rfl, k3 rfl, k4 rfl]

theorem count_out_lines_eq (fs : FS) (target : String)
    (hh : header_output.count target = 0)
    (hs : summary_output.count target = 0)
    (hmg : (main_go_lines fs).count target = 0) :
    (out_lines fs).count target =
      (per_file_lines fs "/workspace/cmd/snapshot/snapshot.go").count target +
      (per_file_lines fs "/workspace/cmd/snapshot/upload.go").count target +
      (per_file_lines fs "/workspace/cmd/snapshot/upload_test.go").count target +
      (per_file_lines fs "/workspace/cmd/snapshot/README.md").count target := by
  simp [out_lines, files_to_check, List.count_append, hh, hs, hmg]
  ring

theorem not_mem_out_lines (fs : FS) (target : String)
    (hh : target ∉ header_output) (hs : target ∉ summary_output)
    (hmg : target ∉ main_go_lines fs)
    (hp : ∀ q ∈ files_to_check, target ∉ per_file_lines fs q) :
    target ∉ out_lines fs := by
  intro hmem
  rcases List.mem_append.mp hmem with h1 | h1
  · rcases List.mem_append.mp h1 with h2 | h2
    · rcases List.mem_append.mp h2 with h3 | h3
      · exact hh h3
      · rcases List.mem_flatten.mp h3 with ⟨l, hl, hTl⟩
        rcases List.mem_map.mp hl with ⟨q, hq, rfl⟩
        exact hp q hq hTl
    · exact hmg h2
  · exact hs h1

theorem mem_out_lines_of_absent (fs : FS) (p : String) (hp : p ∈ files_to_check)
    (habs : fs p = FileState.absent) : missing_line p ∈ out_lines fs := by
  have hone : missing_line p ∈ per_file_lines fs p := by simp [per_file_lines, habs]
  exact List.mem_append_left _ (List.mem_append_left _ (List.mem_append_right _
    (List.mem_flatten.mpr ⟨per_file_lines fs p, List.mem_map.mpr ⟨p, hp, rfl⟩, hone⟩)))

theorem check_go_syntax_eq (content : String) :
    check_go_syntax content =
      brace_check content ++ paren_check content ++ package_check content := by
  unfold check_go_syntax brace_check paren_check package_check
  by_cases h1 : content.data.count '{' = content.data.count '}' <;>
    by_cases h2 : content.data.count '(' = content.data.count ')' <;>
      cases h3 : has_package_decl content <;>
        simp [h1, h2, h3]

theorem leads_brace_self (l : List Char) :
    listLeads "Unmatched braces".data ("Unmatched braces: ".data ++ l) = true := rfl

theorem leads_brace_paren (l : List Char) :
    listLeads "Unmatched braces".data ("Unmatched parentheses: ".data ++ l) = false := rfl

theorem is_brace_issue_brace (o c : Nat) : is_brace_issue (brace_issue o c) = true := by
  unfold is_brace_issue brace_issue
  rw [String.data_append, String.data_append, String.data_append, String.data_append]
  rw [List.append_assoc, List.append_assoc, List.append_assoc]
  exact leads_brace_self _

theorem is_brace_issue_paren (o c : Nat) : is_brace_issue (paren_issue o c) = false := by
  unfold is_brace_issue paren_issue
  rw [String.data_append, String.data_append, String.data_append, String.data_append]
  rw [List.append_assoc, List.append_assoc, List.append_assoc]
  exact leads_brace_paren _

theorem is_brace_issue_package : is_brace_issue "Missing package declaration" = false := rfl

/-! ## Theorems for the claims -/

/-- C1: on every run in which each existing checked file is readable, the
output ends with the same constant block of text — `summary_output`, i.e.
the "Validation Summary" and "Features implemented" blocks — independent of
whether any of the four expected files exists or passes its checks. -/
theorem summary_blocks_constant (fs : FS) (h : all_readable fs) :
    ∃ body, validate_snapshot_command fs = Except.ok (body ++ summary_output) := by
  refine ⟨header_output ++ (files_to_check.map (per_file_lines fs)).flatten ++
    main_go_lines fs, ?_⟩
  rw [validate_ok fs h]
  rfl

/-- Witness for C1 on the filesystem in which all four expected files (and
every other path) are absent. -/
theorem summary_blocks_constant_witness :
    all_readable empty_fs ∧
    ∃ body, validate_snapshot_command empty_fs = Except.ok (body ++ summary_output) :=
  ⟨empty_fs_readable, summary_blocks_constant empty_fs empty_fs_readable⟩

/-- C7: when every existing checked file is readable, the run completes
without raising and the process exits with code 0, whatever the findings;
each missing expected file contributes exactly one warning line and does
not abort the run. -/
theorem validate_completes_exit_zero (fs : FS) (h : all_readable fs) :
    ∃ out, script_main fs = Except.ok (out, 0) ∧
      ∀ p ∈ files_to_check, fs p = FileState.absent →
        out.count (missing_line p) = 1 := by
  refine ⟨out_lines fs, ?_, ?_⟩
  · unfold script_main
    simp only [validate_ok fs h, except_bind_ok, except_pure]
  · intro p hp habs
    simp only [files_to_check, List.mem_cons, List.not_mem_nil, or_false] at hp
    rcases hp with rfl | rfl | rfl | rfl <;>
    · rw [count_out_lines_eq fs _ (by decide) (by decide)
        (count_main_go_zero fs _ (by decide) (by decide) (by decide) (by decide))]
      rw [count_per_file_absent fs _ habs]
      rw [count_per_file_zero fs _ _ (by decide) (by decide) (by decide) (by decide)
            (fun i => (dash_line_ne i _ (by decide)).symm),
          count_per_file_zero fs _ _ (by decide) (by decide) (by decide) (by decide)
            (fun i => (dash_line_ne i _ (by decide)).symm),
          count_per_file_zero fs _ _ (by decide) (by decide) (by decide) (by decide)
            (fun i => (dash_line_ne i _ (by decide)).symm)]

/-- Witness for C7 on the all-absent filesystem. -/
theorem validate_completes_exit_zero_witness :
    all_readable empty_fs ∧
    ∃ out, script_main empty_fs = Except.ok (out, 0) ∧
      ∀ p ∈ files_to_check, empty_fs p = FileState.absent →
        out.count (missing_line p) = 1 :=
  ⟨empty_fs_readable, validate_completes_exit_zero empty_fs empty_fs_readable⟩

/-- C8: when an expected `.go` file exists but reading it fails, the error
raised inside `check_go_syntax` is caught nowhere: the run aborts with it
(`Except.error`), so no issue list is returned and no output is produced
for the remaining files. -/
theorem unreadable_file_fatal (fs : FS) (p c : String)
    (hp : p ∈ files_to_check) (hgo : str_ends_with p ".go" = true)
    (hu : fs p = FileState.file c false) :
    validate_snapshot_command fs = Except.error () := by
  have hper : per_file_output fs p = Except.error () := by
    simp [per_file_output, check_file_exists, hu, hgo, check_go_syntax_file,
      read_file, except_bind_error]
  have hmap := mapM_error_of_mem (per_file_output fs) files_to_check p hp hper
  unfold validate_snapshot_command
  simp only [hmap, except_bind_error]

/-- Witness for C8: the filesystem on which `snapshot.go` exists but is
unreadable makes the whole run abort. -/
theorem unreadable_file_fatal_witness :
    ("/workspace/cmd/snapshot/snapshot.go" ∈ files_to_check) ∧
    (str_ends_with "/workspace/cmd/snapshot/snapshot.go" ".go" = true) ∧
    (unreadable_fs "/workspace/cmd/snapshot/snapshot.go" = FileState.file "" false) ∧
    validate_snapshot_command unreadable_fs = Except.error () :=
  ⟨by decide, by decide, by decide,
   unreadable_file_fatal unreadable_fs "/workspace/cmd/snapshot/snapshot.go" ""
     (by decide) (by decide) (by decide)⟩

/-- C10: when `/workspace/main.go` is absent, the run prints none of the
five lines that could mention it — neither substring confirmation, nor
substring warning, nor a missing-file warning — while each of the four
listed expected files does get an absence warning when missing. -/
theorem main_go_absent_silent (fs : FS) (h : all_readable fs)
    (hm : fs "/workspace/main.go" = FileState.absent) :
    ∃ out, validate_snapshot_command fs = Except.ok out ∧
      (∀ s ∈ main_go_concern_lines, s ∉ out) ∧
      (∀ p ∈ files_to_check, fs p = FileState.absent → missing_line p ∈ out) := by
  refine ⟨out_lines fs, validate_ok fs h, ?_, ?_⟩
  · intro s hs
    simp only [main_go_concern_lines, missing_line, List.mem_cons,
      List.not_mem_nil, or_false] at hs
    rcases hs with rfl | rfl | rfl | rfl | rfl <;>
    · refine not_mem_out_lines fs _ (by decide) (by decide)
        (by simp [main_go_lines, hm]) ?_
      intro q hq
      simp only [files_to_check, List.mem_cons, List.not_mem_nil, or_false] at hq
      rcases hq with rfl | rfl | rfl | rfl <;>
        exact not_mem_per_file_lines fs _ _ (by decide) (by decide) (by decide)
          (by decide) (fun i => (dash_line_ne i _ (by decide)).symm)
  · intro p hp habs
    exact mem_out_lines_of_absent fs p hp habs

/-- Witness for C10 on the all-absent filesystem. -/
theorem main_go_absent_silent_witness :
    all_readable empty_fs ∧
    (empty_fs "/workspace/main.go" = FileState.absent) ∧
    ∃ out, validate_snapshot_command empty_fs = Except.ok out ∧
      (∀ s ∈ main_go_concern_lines, s ∉ out) ∧
      (∀ p ∈ files_to_check, empty_fs p = FileState.absent → missing_line p ∈ out) :=
  ⟨empty_fs_readable, rfl,
   main_go_absent_silent empty_fs empty_fs_readable rfl⟩

/-- C2: for every content with equal counts of `{`/`}` and of `(`/`)` in
which the multiline pattern `^package\s+\w+` matches (some line starts with
`package`, whitespace, and a word character), `check_go_syntax` returns the
empty issue list. -/
theorem clean_content_no_issues (content : String)
    (h1 : content.data.count '{' = content.data.count '}')
    (h2 : content.data.count '(' = content.data.count ')')
    (h3 : has_package_decl content = true) :
    check_go_syntax content = [] := by
  rw [check_go_syntax_eq]
  unfold brace_check paren_check package_check
  simp [h1, h2, h3]

/-- Witness for C2 at the content `"package main\nfunc f() { if true { } }"`. -/
theorem clean_content_no_issues_witness :
    ("package main\nfunc f() { if true { } }".data.count '{' =
       "package main\nfunc f() { if true { } }".data.count '}') ∧
    ("package main\nfunc f() { if true { } }".data.count '(' =
       "package main\nfunc f() { if true { } }".data.count ')') ∧
    (has_package_decl "package main\nfunc f() { if true { } }" = true) ∧
    check_go_syntax "package main\nfunc f() { if true { } }" = [] :=
  ⟨by decide, by decide, by decide,
   clean_content_no_issues _ (by decide) (by decide) (by decide)⟩

/-- C3: for every content whose `{` count differs from its `}` count, the
issue list contains exactly one brace-mismatch string (a string starting
with `Unmatched braces`), and that string reports the true counts. -/
theorem brace_mismatch_single_issue (content : String)
    (h : content.data.count '{' ≠ content.data.count '}') :
    ( check_go_syntax content).filter is_brace_issue =
      [brace_issue (content.data.count '{') (content.data.count '}')] := by
  rw [check_go_syntax_eq]
  rw [List.filter_append, List.filter_append]
  unfold brace_check paren_check package_check
  by_cases h2 : content.data.count '(' = content.data.count ')' <;>
    cases h3 : has_package_decl content <;>
      simp [h, h2, h3, is_brace_issue_brace, is_brace_issue_paren, is_brace_issue_package]

/-- Witness for C3 at the content `"{"`. -/
theorem brace_mismatch_single_issue_witness :
    ("\x7b".data.count '{' ≠ "\x7b".data.count '}') ∧
    ( check_go_syntax "\x7b").filter is_brace_issue = [brace_issue 1 0] :=
  ⟨by decide, brace_mismatch_single_issue "\x7b" (by decide)⟩

/-- C4: on the content `"func f() {"`, `check_go_syntax` returns exactly
the brace issue `"Unmatched braces: 1 open, 0 close"` followed by
`"Missing package declaration"`, with no parenthesis issue. -/
theorem scenario_unmatched_brace :
    check_go_syntax "func f() \x7b" =
      ["Unmatched braces: 1 open, 0 close", "Missing package declaration"] := rfl

/-- C5: the three checks are independent — the result is the concatenation
of the three checks evaluated separately, in the order brace, parenthesis,
package, each contributing at most one issue and nothing when it passes. -/
theorem checks_independent_ordered (content : String) :
    check_go_syntax content =
      brace_check content ++ paren_check content ++ package_check content :=
  check_go_syntax_eq content

/-- C6: `check_file_exists` is a total boolean function of the filesystem
state (by its type it can raise no exception): it returns `false` exactly
on absent paths and `true` exactly on existing ones. -/
theorem file_exists_total_boolean (fs : FS) (p : String) :
    (check_file_exists fs p = false ↔ fs p = FileState.absent) ∧
    (check_file_exists fs p = true ↔ fs p ≠ FileState.absent) := by
  cases h : fs p <;> simp [check_file_exists, h]

/-- C9: the greeter's root handler returns the body `"Hello World!"` with
(2xx) status 200 on every request: it is a constant function of the
request, so query parameters and headers are ignored. -/
theorem greeter_constant_response (req : HttpRequest) :
    (handle_root req).1 = "Hello World!" ∧
    200 ≤ (handle_root req).2 ∧ (handle_root req).2 < 300 ∧
    ∀ other : HttpRequest, handle_root req = handle_root other := by
  exact ⟨rfl, Nat.le_refl 200, by norm_num [handle_root], fun other => rfl⟩
